import Mathlib

/-!
Shallow embedding of `src/main.py` (the NVIDIA news-aware chatbot backend).

Conventions of the embedding:
* Python `None` becomes `Option.none`; a value that may be a string or `None`
  becomes `Option String`.
* The process-global mutable dict `_cache` becomes an explicit association
  list threaded through the functions that read or write it (Python dicts
  replace in place on existing keys and append new keys at the end, which
  `dictSet` mirrors).
* `time.time()` returns a timestamp; time instants are modelled as
  integers (the cache logic only compares time differences with the TTL,
  so nothing depends on sub-second resolution).
* Exceptions become `Except PyExn`; `requests.HTTPError` (raised by
  `Response.raise_for_status`) is the `httpError` constructor, every other
  exception is `other`.  The exception's `str(...)` rendering is the carried
  message string.
* The two network effects are oracles passed in explicitly:
  `http : HttpRequest → Except PyExn HttpResponse` models `requests.get`
  (an `error` result is a raised network exception), and
  `llm : ChatRequest → Except PyExn String` models
  `client.chat.completions.create` followed by reading
  `completion.choices[0].message.content`.
* Each function that performs HTTP GETs also returns the list of requests it
  issued (`calls`), so "performs no upstream HTTP call" is `calls = []`.
-/

namespace NvidiaChatbot

/-- A Python exception: `requests.HTTPError` or any other exception, with its
`str(...)` message. -/
inductive PyExn where
  | httpError (msg : String)
  | other (msg : String)
deriving DecidableEq, Repr

/-- The `source` sub-object of a raw NewsAPI article: a dict whose `name`
field may be absent or null. -/
structure RawSource where
  name : Option String
deriving DecidableEq, Repr

/-- A raw article dict as returned inside NewsAPI's `articles` array.  Every
field may be absent or null (`none`); `source` may additionally be a present
object whose own `name` is absent or null. -/
structure RawArticle where
  title : Option String
  url : Option String
  source : Option RawSource
  publishedAt : Option String
  description : Option String
  content : Option String
deriving DecidableEq, Repr

/-- The normalized article shape produced by `fetch_news` (main.py:90-97). -/
structure Article where
  title : Option String
  url : Option String
  source : Option String
  publishedAt : Option String
  description : Option String
  content : Option String
deriving DecidableEq, Repr

/-- `(a.get("source") or {}).get("name")` followed by the other `a.get(...)`
fields: main.py:90-97, the body of the normalization loop. -/
def normalizeArticle (a : RawArticle) : Article :=
  { title := a.title
    url := a.url
    source := (a.source.getD ⟨none⟩).name
    publishedAt := a.publishedAt
    description := a.description
    content := a.content }

/-- One entry of `_cache`: `{"ts": float, "data": any}` (main.py:49,61); the
payload here is always the cleaned article list `fetch_news` stores. -/
structure CacheEntry where
  ts : ℤ
  data : List Article
deriving DecidableEq, Repr

/-- The global `_cache` dict, as an insertion-ordered association list. -/
abbrev Cache : Type := List (String × CacheEntry)

/-- `dict.get(key)`: first (unique) binding of the key, if any. -/
def dictGet : Cache → String → Option CacheEntry
  | [], _ => none
  | (k', e') :: rest, k => if k' = k then some e' else dictGet rest k

/-- `dict[key] = value`: replace the binding in place if the key is present,
otherwise append it. -/
def dictSet : Cache → String → CacheEntry → Cache
  | [], k, e => [(k, e)]
  | (k', e') :: rest, k, e =>
      if k' = k then (k, e) :: rest else (k', e') :: dictSet rest k e

/-- `CACHE_TTL_SECONDS = 180` (main.py:50). -/
def CACHE_TTL_SECONDS : ℤ := 180

/-- `get_cache` (main.py:52-58).  Reads the cache at time `now`; it performs
no write, which the unchanged second component records.  A stored entry is
returned exactly while `now - ts` does not exceed the TTL. -/
def get_cache (c : Cache) (now : ℤ) (key : String) :
    Option (List Article) × Cache :=
  match dictGet c key with
  | none => (none, c)
  | some item =>
      if now - item.ts > CACHE_TTL_SECONDS then (none, c)
      else (some item.data, c)

/-- `set_cache` (main.py:60-61): store `{"ts": time.time(), "data": data}`. -/
def set_cache (c : Cache) (now : ℤ) (key : String) (data : List Article) :
    Cache :=
  dictSet c key ⟨now, data⟩

/-- Python truthiness of `cached` in `if cached:` (main.py:72): `None` and the
empty list are falsy, a non-empty list is truthy. -/
def truthy : Option (List Article) → Bool
  | none => false
  | some l => !l.isEmpty

/-- Substring test `needle in hay` on Python strings, over character lists. -/
def containsSub (needle hay : List Char) : Bool :=
  hay.tails.any (fun t => needle.isPrefixOf t)

/-- `str.lower()` (ASCII letters; the keywords below are ASCII). -/
def pyLower (s : String) : String :=
  ⟨s.data.map Char.toLower⟩

/-- The whitespace characters `str.strip()` removes. -/
def pySpace (c : Char) : Bool :=
  c == ' ' || c == '\t' || c == '\n' || c == '\r' ||
  c == '\x0b' || c == '\x0c'

/-- Python `str.strip()`: drop leading and trailing whitespace. -/
def pyStrip (s : String) : String :=
  ⟨((s.data.dropWhile pySpace).reverse.dropWhile pySpace).reverse⟩

/-- The fixed keyword list of `looks_like_news_intent` (main.py:141-145). -/
def newsKeywords : List String :=
  ["latest", "today", "this week", "recent", "news", "announce", "announced",
   "earnings", "quarter", "q1", "q2", "q3", "q4", "revenue", "guidance",
   "press release", "launch", "just released"]

/-- `looks_like_news_intent` (main.py:139-146): lowercase the question and
test substring membership of each keyword. -/
def looks_like_news_intent (q : String) : Bool :=
  let ql := pyLower q
  newsKeywords.any (fun k => containsSub k.toList ql.toList)

/-- Uppercase hexadecimal digit for a value below 16. -/
def hexDigit (n : Nat) : Char :=
  if n < 10 then Char.ofNat (48 + n) else Char.ofNat (55 + n)

/-- UTF-8 encoding of one character, as byte values. -/
def utf8Bytes (c : Char) : List Nat :=
  let n := c.toNat
  if n < 0x80 then [n]
  else if n < 0x800 then [0xC0 + n / 64, 0x80 + n % 64]
  else if n < 0x10000 then
    [0xE0 + n / 4096, 0x80 + (n / 64) % 64, 0x80 + n % 64]
  else
    [0xF0 + n / 262144, 0x80 + (n / 4096) % 64, 0x80 + (n / 64) % 64,
     0x80 + n % 64]

/-- Characters `requests.utils.quote` leaves unescaped: the unreserved set
`ALPHA / DIGIT / "-" / "." / "_" / "~"` plus the default safe character
`/`. -/
def quoteSafe (c : Char) : Bool :=
  (97 ≤ c.toNat && c.toNat ≤ 122) || (65 ≤ c.toNat && c.toNat ≤ 90) ||
  (48 ≤ c.toNat && c.toNat ≤ 57) ||
  c == '-' || c == '.' || c == '_' || c == '~' || c == '/'

/-- `requests.utils.quote` (main.py:78): percent-encode, with uppercase hex,
every UTF-8 byte of every character outside the safe set. -/
def quote (s : String) : String :=
  String.mk (s.toList.flatMap fun c =>
    if quoteSafe c then [c]
    else (utf8Bytes c).flatMap fun b =>
      ['%', hexDigit (b / 16), hexDigit (b % 16)])

/-- One `requests.get(url, timeout=10)` call (main.py:84). -/
structure HttpRequest where
  url : String
  timeout : Nat
deriving DecidableEq, Repr

/-- An upstream HTTP response: its status code and the `articles` value of
its JSON body.  `raw.get("articles", []) or []` (main.py:87) turns a missing
or null `articles` value into the empty list, so `none` stands for both. -/
structure HttpResponse where
  status : Nat
  body : Option (List RawArticle)
deriving DecidableEq, Repr

/-- `Response.raise_for_status()` (main.py:85): raises `requests.HTTPError`
for a 4xx or 5xx status, otherwise does nothing.  (The exact message text is
built inside the requests library, outside this repository; only that some
string message is raised matters here.) -/
def raise_for_status (resp : HttpResponse) : Except PyExn Unit :=
  if 400 ≤ resp.status ∧ resp.status < 600 then
    .error (.httpError ("HTTP error " ++ toString resp.status))
  else .ok ()

/-- The cache key `f"news::{query}::{days}::{page_size}::{language}"`
(main.py:70). -/
def cache_key (query : String) (days page_size : Int) (language : String) :
    String :=
  "news::" ++ query ++ "::" ++ toString days ++ "::" ++ toString page_size ++
    "::" ++ language

/-- The request URL built at main.py:76-83.  Note that `days` does not occur
in it: only the escaped query, `language`, `sortBy=publishedAt`, `pageSize`
and `apiKey` are embedded. -/
def buildNewsUrl (query : String) (page_size : Int)
    (language apiKey : String) : String :=
  "https://newsapi.org/v2/everything" ++
    "?q=" ++ quote query ++
    "&language=" ++ language ++
    "&sortBy=publishedAt" ++
    "&pageSize=" ++ toString page_size ++
    "&apiKey=" ++ apiKey

/-- The single GET request `fetch_news` issues on a cache miss. -/
def newsRequest (query : String) (page_size : Int)
    (language apiKey : String) : HttpRequest :=
  ⟨buildNewsUrl query page_size language apiKey, 10⟩

deriving instance DecidableEq for Except

/-- Outcome of one `fetch_news` call: the returned list (or the raised
exception), the cache afterwards, and the HTTP requests issued. -/
structure FetchResult where
  result : Except PyExn (List Article)
  cache : Cache
  calls : List HttpRequest
deriving DecidableEq, Repr

/-- The cache-miss path of `fetch_news` (main.py:75-100): one GET,
`raise_for_status`, normalization of each raw article, then `set_cache`. -/
def fetchMiss (http : HttpRequest → Except PyExn HttpResponse)
    (apiKey : String) (now : ℤ) (c : Cache) (key query : String)
    (page_size : Int) (language : String) : FetchResult :=
  let req := newsRequest query page_size language apiKey
  match http req with
  | .error e => ⟨.error e, c, [req]⟩
  | .ok resp =>
      match raise_for_status resp with
      | .error e => ⟨.error e, c, [req]⟩
      | .ok _ =>
          let articles := resp.body.getD []
          let cleaned := articles.map normalizeArticle
          ⟨.ok cleaned, set_cache c now key cleaned, [req]⟩

/-- `fetch_news` (main.py:66-100).  `if cached: return cached` takes the hit
path only when `get_cache` returned a non-empty list (Python truthiness);
otherwise the miss path runs. -/
def fetch_news (http : HttpRequest → Except PyExn HttpResponse)
    (apiKey : String) (now : ℤ) (c : Cache) (query : String)
    (days page_size : Int) (language : String) : FetchResult :=
  let key := cache_key query days page_size language
  let gc := get_cache c now key
  if truthy gc.1 then ⟨.ok (gc.1.getD []), gc.2, []⟩
  else fetchMiss http apiKey now gc.2 key query page_size language

/-- One chat message of an OpenAI completion request. -/
structure ChatMessage where
  role : String
  content : String
deriving DecidableEq, Repr

/-- One `client.chat.completions.create(...)` call: model, messages,
`max_tokens`, `temperature`. -/
structure ChatRequest where
  model : String
  messages : List ChatMessage
  max_tokens : Nat
  temperature : ℚ
deriving DecidableEq, Repr

/-- Python `x or default` on an optional string: `None` and the empty string
are falsy, so both fall back to the default. -/
def pyOrStr (x : Option String) (default : String) : String :=
  match x with
  | none => default
  | some s => if s = "" then default else s

/-- One digest line `f"{i}. {title} — {src} — {url}"` (main.py:111-115),
with the `or`-fallbacks "Untitled", "Unknown" and "". -/
def digestLine (i : Nat) (a : Article) : String :=
  toString i ++ ". " ++ pyOrStr a.title "Untitled" ++ " — " ++
    pyOrStr a.source "Unknown" ++ " — " ++ pyOrStr a.url ""

/-- The digest lines, numbered from 1 (`enumerate(articles, start=1)`). -/
def digestLines (i : Nat) : List Article → List String
  | [] => []
  | a :: rest => digestLine i a :: digestLines (i + 1) rest

/-- `"\n".join(lines)`. -/
def joinNewline : List String → String
  | [] => ""
  | [s] => s
  | s :: rest => s ++ "\n" ++ joinNewline rest

/-- The fixed message `summarize_articles` returns for an empty article list
(main.py:107). -/
def noArticlesMsg : String := "No recent relevant articles found."

/-- The system instruction of the summarization call (main.py:122-128). -/
def summarizeSystemMsg : String :=
  "You are an NVIDIA news assistant. Answer succinctly and factually using only the info implied by the articles list. If timing is uncertain, say so. Include 2–4 bullet points and end with a short 'Sources' list of the most relevant URLs."

/-- The completion request `summarize_articles` issues (main.py:119-136). -/
def summarizeRequest (articles : List Article) (user_question : String) :
    ChatRequest :=
  let context :=
    "Recent NVIDIA-related articles:\n" ++ joinNewline (digestLines 1 articles)
  { model := "gpt-4o-mini"
    messages :=
      [⟨"system", summarizeSystemMsg⟩,
       ⟨"user", context ++ "\n\nUser question: " ++ user_question ++
          "\n\nSummarize and answer:"⟩]
    max_tokens := 350
    temperature := 0.3 }

/-- `summarize_articles` (main.py:102-137): the fixed message and no LLM call
for an empty list, otherwise one completion call whose trimmed content is
returned.  The second component lists the LLM calls issued. -/
def summarize_articles (llm : ChatRequest → Except PyExn String)
    (articles : List Article) (user_question : String) :
    Except PyExn String × List ChatRequest :=
  if articles.isEmpty then (.ok noArticlesMsg, [])
  else
    let req := summarizeRequest articles user_question
    match llm req with
    | .error e => (.error e, [req])
    | .ok content => (.ok (pyStrip content), [req])

/-- Request body of `POST /news` (main.py:40-44), with pydantic defaults. -/
structure NewsQuery where
  query : String := "NVIDIA"
  days : Int := 7
  page_size : Int := 5
  language : String := "en"
deriving DecidableEq, Repr

/-- Response body of `POST /news`: either `{"summary", "articles"}` or
`{"error"}`. -/
inductive NewsResponse where
  | ok (summary : String) (articles : List Article)
  | err (msg : String)
deriving DecidableEq, Repr

/-- Response body of `POST /ask`: either `{"answer", "mode"}` with an
`articles` key exactly when the third field is `some`, or `{"error"}`. -/
inductive AskResponse where
  | ok (answer mode : String) (articles : Option (List Article))
  | err (msg : String)
deriving DecidableEq, Repr

/-- `str(e)` of a caught exception: the carried message. -/
def strExn : PyExn → String
  | .httpError m => m
  | .other m => m

/-- The `try` block of the `/news` handler (main.py:164-167): fetch, then
summarize with the fixed question about the query. -/
def newsTry (http : HttpRequest → Except PyExn HttpResponse)
    (apiKey : String) (llm : ChatRequest → Except PyExn String) (now : ℤ)
    (c : Cache) (q : NewsQuery) :
    Except PyExn (String × List Article) × Cache :=
  let f := fetch_news http apiKey now c q.query q.days q.page_size q.language
  match f.result with
  | .error e => (.error e, f.cache)
  | .ok arts =>
      match (summarize_articles llm arts
          ("Summarize latest about " ++ q.query)).1 with
      | .error e => (.error e, f.cache)
      | .ok summary => (.ok (summary, arts), f.cache)

/-- The `/news` handler (main.py:159-169): the `try` body's value, or
`{"error": str(e)}` for any exception. -/
def newsEndpoint (http : HttpRequest → Except PyExn HttpResponse)
    (apiKey : String) (llm : ChatRequest → Except PyExn String) (now : ℤ)
    (c : Cache) (q : NewsQuery) : NewsResponse × Cache :=
  let t := newsTry http apiKey llm now c q
  match t.1 with
  | .error e => (.err (strExn e), t.2)
  | .ok (summary, arts) => (.ok summary arts, t.2)

/-- The blending completion request of the news branch of `/ask`
(main.py:184-194). -/
def blendRequest (question news_summary : String) : ChatRequest :=
  { model := "gpt-4o-mini"
    messages :=
      [⟨"system",
        "You are an expert on NVIDIA, GPUs, AI hardware, and software. Be concise and accurate."⟩,
       ⟨"user", "User question: " ++ question ++
          "\n\nUse this news digest to answer:\n" ++ news_summary⟩]
    max_tokens := 300
    temperature := 0.4 }

/-- The direct-answer completion request of `/ask` (main.py:199-208). -/
def directRequest (question : String) : ChatRequest :=
  { model := "gpt-4o-mini"
    messages :=
      [⟨"system",
        "You are an expert on NVIDIA, GPUs, AI hardware, and software. Be clear and practical."⟩,
       ⟨"user", question⟩]
    max_tokens := 250
    temperature := 0.5 }

/-- The `try` block of the `/ask` handler (main.py:177-210): classify the
question; in news mode fetch `"NVIDIA"` news (days=7, page_size=6, "en"),
summarize, blend; in direct mode one completion call. -/
def askTry (http : HttpRequest → Except PyExn HttpResponse) (apiKey : String)
    (llm : ChatRequest → Except PyExn String) (now : ℤ) (c : Cache)
    (question : String) :
    Except PyExn (String × String × Option (List Article)) × Cache :=
  if looks_like_news_intent question then
    let f := fetch_news http apiKey now c "NVIDIA" 7 6 "en"
    match f.result with
    | .error e => (.error e, f.cache)
    | .ok arts =>
        match (summarize_articles llm arts question).1 with
        | .error e => (.error e, f.cache)
        | .ok news_summary =>
            match llm (blendRequest question news_summary) with
            | .error e => (.error e, f.cache)
            | .ok content =>
                (.ok (pyStrip content, "news", some arts), f.cache)
  else
    match llm (directRequest question) with
    | .error e => (.error e, c)
    | .ok content => (.ok (pyStrip content, "direct", none), c)

/-- The two `except` clauses of `/ask` (main.py:212-215): an HTTPError gets
the `"News API HTTP error: ..."` prefix, every other exception `str(e)`. -/
def askErrorBody : PyExn → String
  | .httpError m => "News API HTTP error: " ++ m
  | .other m => m

/-- The `/ask` handler `ask_nvidia` (main.py:171-215). -/
def ask_nvidia (http : HttpRequest → Except PyExn HttpResponse)
    (apiKey : String) (llm : ChatRequest → Except PyExn String) (now : ℤ)
    (c : Cache) (question : String) : AskResponse × Cache :=
  let t := askTry http apiKey llm now c question
  match t.1 with
  | .error e => (.err (askErrorBody e), t.2)
  | .ok (answer, mode, arts) => (.ok answer mode arts, t.2)

/-! Concrete sample data and oracles used to instantiate the theorems. -/

/-- A raw article with every field present. -/
def sampleRaw : RawArticle :=
  ⟨some "NVIDIA ships new GPU", some "https://example.com/a",
   some ⟨some "Example"⟩, some "2025-01-01T00:00:00Z", some "desc",
   some "content"⟩

/-- A raw article with every field absent or null. -/
def rawEmpty : RawArticle := ⟨none, none, none, none, none, none⟩

/-- The normalization of `sampleRaw`. -/
def sampleArticle : Article :=
  ⟨some "NVIDIA ships new GPU", some "https://example.com/a", some "Example",
   some "2025-01-01T00:00:00Z", some "desc", some "content"⟩

/-- An HTTP oracle whose every call raises a network exception. -/
def httpDown : HttpRequest → Except PyExn HttpResponse :=
  fun _ => .error (.other "network unreachable")

/-- An HTTP oracle answering 200 with an empty `articles` array. -/
def httpEmptyOk : HttpRequest → Except PyExn HttpResponse :=
  fun _ => .ok ⟨200, some []⟩

/-- An HTTP oracle answering 200 with one raw article. -/
def httpOneArticle : HttpRequest → Except PyExn HttpResponse :=
  fun _ => .ok ⟨200, some [sampleRaw]⟩

/-- An HTTP oracle answering HTTP 500 on every call. -/
def http500 : HttpRequest → Except PyExn HttpResponse :=
  fun _ => .ok ⟨500, some []⟩

/-- An LLM oracle answering every completion request with a fixed text. -/
def llmConst : ChatRequest → Except PyExn String :=
  fun _ => .ok "LLM answer"

/-- An LLM oracle whose every call raises an exception. -/
def llmDown : ChatRequest → Except PyExn String :=
  fun _ => .error (.other "llm failure")

/-! Helper lemmas about the cache dictionary and the embedding. -/

theorem containsSub_correct (needle hay : List Char) :
    containsSub needle hay = true ↔ needle <:+: hay := by
  unfold containsSub
  rw [List.any_eq_true]
  constructor
  · rintro ⟨t, ht, hpre⟩
    exact List.infix_iff_prefix_suffix.mpr
      ⟨t, List.isPrefixOf_iff_prefix.mp hpre, (List.mem_tails _ _).mp ht⟩
  · intro h
    obtain ⟨t, hpre, hsuf⟩ := List.infix_iff_prefix_suffix.mp h
    exact ⟨t, (List.mem_tails _ _).mpr hsuf, List.isPrefixOf_iff_prefix.mpr hpre⟩

theorem dictGet_dictSet_self (c : Cache) (k : String) (e : CacheEntry) :
    dictGet (dictSet c k e) k = some e := by
  induction c with
  | nil => simp [dictSet, dictGet]
  | cons hd tl ih =>
      by_cases h : hd.1 = k
      · simp [dictSet, dictGet, h]
      · simpa [dictSet, dictGet, h] using ih

theorem dictGet_dictSet_ne (c : Cache) (k k' : String) (e : CacheEntry)
    (h : k' ≠ k) : dictGet (dictSet c k e) k' = dictGet c k' := by
  induction c with
  | nil => simp [dictSet, dictGet, Ne.symm h]
  | cons hd tl ih =>
      by_cases hk : hd.1 = k
      · simp [dictSet, dictGet, hk, Ne.symm h]
      · simp [dictSet, dictGet, hk, ih]

theorem length_dictSet_of_none (c : Cache) (k : String) (e : CacheEntry)
    (h : dictGet c k = none) : (dictSet c k e).length = c.length + 1 := by
  induction c with
  | nil => simp [dictSet]
  | cons hd tl ih =>
      by_cases hk : hd.1 = k
      · simp [dictGet, hk] at h
      · simp only [dictGet, hk, if_false] at h
        simp [dictSet, hk, ih h]

theorem get_cache_snd (c : Cache) (now : ℤ) (key : String) :
    (get_cache c now key).2 = c := by
  unfold get_cache
  rcases dictGet c key with _ | item
  · rfl
  · dsimp only
    split <;> rfl

theorem fetchMiss_calls (http : HttpRequest → Except PyExn HttpResponse)
    (apiKey : String) (now : ℤ) (c : Cache) (key query : String)
    (page_size : Int) (language : String) :
    (fetchMiss http apiKey now c key query page_size language).calls =
      [newsRequest query page_size language apiKey] := by
  unfold fetchMiss
  rcases hh : http (newsRequest query page_size language apiKey) with e | resp
  · simp [hh]
  · rcases hr : raise_for_status resp with e | u
    · simp [hh, hr]
    · simp [hh, hr]

/-! Claim theorems. -/

/-- Claim C3 (confirmed): `looks_like_news_intent` returns `true` exactly for
the question strings whose lowercased form contains some keyword of the fixed
list as a substring, and `false` for all others. -/
theorem claim_C3_intent_classifier (q : String) :
    looks_like_news_intent q = true ↔
      ∃ k ∈ newsKeywords, k.toList <:+: (pyLower q).toList := by
  unfold looks_like_news_intent
  rw [List.any_eq_true]
  simp only [containsSub_correct]

/-- Claim C4 (confirmed): for every user question and every LLM oracle,
`summarize_articles` on the empty article list returns the fixed no-articles
message and issues no LLM completion call (its call list is empty). -/
theorem claim_C4_summarize_empty
    (llm : ChatRequest → Except PyExn String) (q : String) :
    summarize_articles llm [] q = (.ok noArticlesMsg, []) := rfl

/-- Claim C5 (confirmed): a `get_cache` read at time `now` of a stored entry
returns its payload exactly when `now - ts ≤ 180`, returns `none` when no
entry is stored, and never modifies the cache; `set_cache` stores the entry
under its key, leaves every other key unchanged, and grows the cache by one
entry for each fresh key (no capacity bound, no eviction). -/
theorem claim_C5_cache_ttl (c : Cache) (k k' : String) (e : CacheEntry)
    (now : ℤ) (d : List Article) :
    (dictGet c k = some e →
      ((get_cache c now k).1 = some e.data ↔ now - e.ts ≤ CACHE_TTL_SECONDS))
    ∧ (dictGet c k = none → (get_cache c now k).1 = none)
    ∧ (get_cache c now k).2 = c
    ∧ dictGet (set_cache c now k d) k = some ⟨now, d⟩
    ∧ (k' ≠ k → dictGet (set_cache c now k d) k' = dictGet c k')
    ∧ (dictGet c k = none → (set_cache c now k d).length = c.length + 1) :=
  by
  refine ⟨?_, ?_, get_cache_snd c now k, dictGet_dictSet_self c k _,
    dictGet_dictSet_ne c k k' _, length_dictSet_of_none c k _⟩
  · intro h
    unfold get_cache
    rw [h]
    dsimp only
    split
    · rename_i hgt
      exact iff_of_false (by simp) (by simpa using not_le.mpr hgt)
    · rename_i hle
      exact iff_of_true rfl (not_lt.mp hle)
  · intro h
    unfold get_cache
    rw [h]

/-- Witness for C5 at concrete inputs: a read of an entry written at time 0
at time 100 returns the payload; a write stores the entry and grows an empty
cache to one entry. -/
theorem claim_C5_cache_ttl_witness :
    (get_cache [("k", ⟨0, [sampleArticle]⟩)] 100 "k").1 = some [sampleArticle]
    ∧ (get_cache [] 100 "k").1 = none
    ∧ dictGet (set_cache [] 0 "k" []) "k" = some ⟨0, []⟩
    ∧ (set_cache ([] : Cache) 0 "k" []).length = ([] : Cache).length + 1 :=
  ⟨((claim_C5_cache_ttl [("k", ⟨0, [sampleArticle]⟩)] "k" "k" ⟨0, [sampleArticle]⟩
      100 []).1 rfl).mpr (by decide),
   (claim_C5_cache_ttl [] "k" "k" ⟨0, []⟩ 100 []).2.1 rfl,
   (claim_C5_cache_ttl [] "k" "k" ⟨0, []⟩ 0 []).2.2.2.1,
   (claim_C5_cache_ttl [] "k" "k" ⟨0, []⟩ 0 []).2.2.2.2.2 rfl⟩

/-- Claim C8 (confirmed): `fetch_news` normalization is total — one `Article`
per raw input record — and maps each field through `a.get(...)`, so a missing
or null field (including a missing, null or name-less `source`) becomes
`none` rather than a failure. -/
theorem claim_C8_normalization (raws : List RawArticle) :
    (raws.map normalizeArticle).length = raws.length
    ∧ ∀ r ∈ raws,
        (normalizeArticle r).title = r.title
        ∧ (normalizeArticle r).url = r.url
        ∧ (normalizeArticle r).publishedAt = r.publishedAt
        ∧ (normalizeArticle r).description = r.description
        ∧ (normalizeArticle r).content = r.content
        ∧ (r.source = none → (normalizeArticle r).source = none)
        ∧ (∀ so, r.source = some so → (normalizeArticle r).source = so.name) :=
  by
  refine ⟨List.length_map _ _, fun r _ => ?_⟩
  refine ⟨rfl, rfl, rfl, rfl, rfl, fun h => ?_, fun so h => ?_⟩
  · simp [normalizeArticle, h]
  · simp [normalizeArticle, h]

/-- Witness for C8: the all-absent raw record normalizes to the all-`none`
article. -/
theorem claim_C8_normalization_witness :
    ([rawEmpty].map normalizeArticle).length = 1
    ∧ (normalizeArticle rawEmpty).source = none :=
  ⟨(claim_C8_normalization [rawEmpty]).1,
   (((claim_C8_normalization [rawEmpty]).2 rawEmpty (by simp)).2.2.2.2.2.1) rfl⟩

/-- Claim C9 (confirmed): the cache key is not injective — the distinct
parameter tuples `("x::1", 2, 3, "en")` and `("x", 1, 2, "3::en")` collide —
and within the TTL a `fetch_news` call with the second tuple returns the
cached results stored for the first, issuing no HTTP request (the HTTP
oracle here fails every call, so the returned data can only come from the
cache). -/
theorem claim_C9_cache_key_collision :
    cache_key "x::1" 2 3 "en" = cache_key "x" 1 2 "3::en"
    ∧ ("x::1", (2 : Int), (3 : Int), "en") ≠ ("x", (1 : Int), (2 : Int), "3::en")
    ∧ (fetch_news httpDown "K" 10
        (set_cache [] 0 (cache_key "x::1" 2 3 "en") [sampleArticle])
        "x" 1 2 "3::en").result = .ok [sampleArticle]
    ∧ (fetch_news httpDown "K" 10
        (set_cache [] 0 (cache_key "x::1" 2 3 "en") [sampleArticle])
        "x" 1 2 "3::en").calls = [] := by
  refine ⟨rfl, by decide, ?_, ?_⟩ <;> rfl

/-- Claim C10 (confirmed): when the upstream request fails — a network error
or a non-2xx status making `raise_for_status` raise — `fetch_news` raises
before `set_cache` runs, so the cache mapping is returned unchanged. -/
theorem claim_C10_error_no_write
    (http : HttpRequest → Except PyExn HttpResponse) (apiKey : String)
    (now : ℤ) (c : Cache) (q : String) (d ps : Int) (l : String) (e : PyExn)
    (herr : (fetch_news http apiKey now c q d ps l).result = .error e) :
    (fetch_news http apiKey now c q d ps l).cache = c := by
  unfold fetch_news at herr ⊢
  set key := cache_key q d ps l
  rcases ht : truthy (get_cache c now key).1 with _ | _
  · rw [if_neg (by simp [ht])] at herr ⊢
    rw [get_cache_snd] at herr ⊢
    unfold fetchMiss at herr ⊢
    rcases hh : http (newsRequest q ps l apiKey) with e' | resp
    · simp [hh]
    · rcases hr : raise_for_status resp with e' | u
      · simp [hh, hr]
      · simp [hh, hr] at herr
  · rw [if_pos (by simp [ht])] at herr
    simp at herr

/-- Witness for C10: a failing network oracle on the empty cache leaves the
cache empty. -/
theorem claim_C10_error_no_write_witness :
    (fetch_news httpDown "K" 0 [] "NVIDIA" 7 5 "en").cache = [] :=
  claim_C10_error_no_write httpDown "K" 0 [] "NVIDIA" 7 5 "en"
    (.other "network unreachable") rfl

/-- Counterexample to claim C1 as stated: the claim fails when the stored
list is empty.  With an upstream returning zero articles, the first
`fetch_news` call stores `[]` under the computed key; a second call one
second later — the entry exists and is well within the 180-second TTL — still
issues an upstream HTTP request, because `if cached:` treats the cached empty
list as falsy. -/
theorem claim_C1_counterexample :
    (fetch_news httpEmptyOk "K" 0 [] "NVIDIA" 7 5 "en").result = .ok []
    ∧ dictGet (fetch_news httpEmptyOk "K" 0 [] "NVIDIA" 7 5 "en").cache
        (cache_key "NVIDIA" 7 5 "en") = some ⟨0, []⟩
    ∧ ((1 : ℤ) - 0 ≤ CACHE_TTL_SECONDS)
    ∧ (fetch_news httpEmptyOk "K" 1
        (fetch_news httpEmptyOk "K" 0 [] "NVIDIA" 7 5 "en").cache
        "NVIDIA" 7 5 "en").calls = [newsRequest "NVIDIA" 5 "en" "K"] :=
  ⟨rfl, rfl, by decide, rfl⟩

/-- Claim C1 (amended): for every parameter tuple, after a first `fetch_news`
call that misses the cache and succeeds upstream, the computed key holds the
normalized list; if that list is NON-EMPTY, a second call within the
180-second TTL returns it unchanged, leaves the cache unchanged and performs
no upstream HTTP call; after the TTL elapses, a subsequent call performs a
new upstream call.  (The non-emptiness proviso is forced by
`claim_C1_counterexample`.) -/
theorem claim_C1_cache_roundtrip
    (http : HttpRequest → Except PyExn HttpResponse) (apiKey : String)
    (t0 t1 : ℤ) (c0 : Cache) (q : String) (d ps : Int) (l : String)
    (resp : HttpResponse)
    (hmiss : truthy (get_cache c0 t0 (cache_key q d ps l)).1 = false)
    (hok : http (newsRequest q ps l apiKey) = .ok resp)
    (hstatus : resp.status < 400) :
    fetch_news http apiKey t0 c0 q d ps l =
      ⟨.ok ((resp.body.getD []).map normalizeArticle),
       set_cache c0 t0 (cache_key q d ps l)
         ((resp.body.getD []).map normalizeArticle),
       [newsRequest q ps l apiKey]⟩
    ∧ ((resp.body.getD []).map normalizeArticle ≠ [] →
        t1 - t0 ≤ CACHE_TTL_SECONDS →
        fetch_news http apiKey t1
            (set_cache c0 t0 (cache_key q d ps l)
              ((resp.body.getD []).map normalizeArticle)) q d ps l =
          ⟨.ok ((resp.body.getD []).map normalizeArticle),
           set_cache c0 t0 (cache_key q d ps l)
             ((resp.body.getD []).map normalizeArticle), []⟩)
    ∧ (t1 - t0 > CACHE_TTL_SECONDS →
        (fetch_news http apiKey t1
            (set_cache c0 t0 (cache_key q d ps l)
              ((resp.body.getD []).map normalizeArticle)) q d ps l).calls =
          [newsRequest q ps l apiKey]) := by
  have hrs : raise_for_status resp = .ok () := by
    unfold raise_for_status
    rw [if_neg (by omega)]
  refine ⟨?_, ?_, ?_⟩
  · unfold fetch_news
    rw [if_neg (by simp [hmiss])]
    rw [get_cache_snd]
    unfold fetchMiss
    simp only [hok, hrs]
  · intro hne hle
    have hget : get_cache
        (set_cache c0 t0 (cache_key q d ps l)
          ((resp.body.getD []).map normalizeArticle)) t1
        (cache_key q d ps l) =
        (some ((resp.body.getD []).map normalizeArticle),
         set_cache c0 t0 (cache_key q d ps l)
           ((resp.body.getD []).map normalizeArticle)) := by
      unfold get_cache
      rw [set_cache, dictGet_dictSet_self]
      dsimp only
      rw [if_neg (not_lt.mpr hle)]
    have htru : truthy (some ((resp.body.getD []).map normalizeArticle)) =
        true := by
      simp [truthy, List.isEmpty_iff, hne]
    unfold fetch_news
    simp only [hget, htru, if_true, Option.getD_some]
  · intro hgt
    have hget : get_cache
        (set_cache c0 t0 (cache_key q d ps l)
          ((resp.body.getD []).map normalizeArticle)) t1
        (cache_key q d ps l) =
        (none,
         set_cache c0 t0 (cache_key q d ps l)
           ((resp.body.getD []).map normalizeArticle)) := by
      unfold get_cache
      rw [set_cache, dictGet_dictSet_self]
      dsimp only
      rw [if_pos hgt]
    unfold fetch_news
    simp only [hget, truthy, Bool.false_eq_true, if_false]
    exact fetchMiss_calls http apiKey t1 _ _ q ps l

/-- Witness for C1 at concrete inputs: the upstream returns one article; the
second call at `t1 = 1` is a pure cache hit, the call at `t1 = 200` goes
upstream again. -/
theorem claim_C1_cache_roundtrip_witness :
    fetch_news httpOneArticle "K" 0 [] "NVIDIA" 7 5 "en" =
      ⟨.ok [sampleArticle],
       set_cache [] 0 (cache_key "NVIDIA" 7 5 "en") [sampleArticle],
       [newsRequest "NVIDIA" 5 "en" "K"]⟩
    ∧ fetch_news httpOneArticle "K" 1
        (set_cache [] 0 (cache_key "NVIDIA" 7 5 "en") [sampleArticle])
        "NVIDIA" 7 5 "en" =
      ⟨.ok [sampleArticle],
       set_cache [] 0 (cache_key "NVIDIA" 7 5 "en") [sampleArticle], []⟩
    ∧ (fetch_news httpOneArticle "K" 200
        (set_cache [] 0 (cache_key "NVIDIA" 7 5 "en") [sampleArticle])
        "NVIDIA" 7 5 "en").calls = [newsRequest "NVIDIA" 5 "en" "K"] :=
  ⟨(claim_C1_cache_roundtrip httpOneArticle "K" 0 1 [] "NVIDIA" 7 5 "en"
      ⟨200, some [sampleRaw]⟩ rfl rfl (by decide)).1,
   (claim_C1_cache_roundtrip httpOneArticle "K" 0 1 [] "NVIDIA" 7 5 "en"
      ⟨200, some [sampleRaw]⟩ rfl rfl (by decide)).2.1 (by decide) (by decide),
   (claim_C1_cache_roundtrip httpOneArticle "K" 0 200 [] "NVIDIA" 7 5 "en"
      ⟨200, some [sampleRaw]⟩ rfl rfl (by decide)).2.2 (by decide)⟩

/-- Counterexample to claim C2 as stated: the recency window (`days`) is NOT
embedded in the request.  Two calls differing only in `days` (7 vs 12345)
issue the identical HTTP request, and the decimal representation of the
`days` value does not occur anywhere in the request URL. -/
theorem claim_C2_counterexample :
    (fetch_news httpDown "K" 0 [] "NVIDIA" 7 5 "en").calls =
      (fetch_news httpDown "K" 0 [] "NVIDIA" 12345 5 "en").calls
    ∧ (7 : Int) ≠ 12345
    ∧ containsSub "12345".toList
        (buildNewsUrl "NVIDIA" 5 "en" "K").toList = false :=
  ⟨rfl, by decide, by decide⟩

/-- Claim C2 (amended): on a cache miss, `fetch_news` issues exactly one HTTP
GET to the news search endpoint in which the query is URL-escaped and the
page size and language are embedded as query string arguments, with results
requested sorted by publish time (`sortBy=publishedAt`) and a timeout of 10
time units; the recency window (`days`) parameter is not embedded in the
request (it only enters the cache key). -/
theorem claim_C2_request_url
    (http : HttpRequest → Except PyExn HttpResponse) (apiKey : String)
    (now : ℤ) (c : Cache) (q : String) (d ps : Int) (l : String)
    (hmiss : truthy (get_cache c now (cache_key q d ps l)).1 = false) :
    (fetch_news http apiKey now c q d ps l).calls =
      [⟨"https://newsapi.org/v2/everything" ++ "?q=" ++ quote q ++
          "&language=" ++ l ++ "&sortBy=publishedAt" ++ "&pageSize=" ++
          toString ps ++ "&apiKey=" ++ apiKey, 10⟩] := by
  unfold fetch_news
  rw [if_neg (by simp [hmiss])]
  rw [fetchMiss_calls]
  rfl

/-- Witness for C2: the single request issued for the tuple
`("a b", 7, 5, "en")` on the empty cache, with the space of the query
percent-encoded. -/
theorem claim_C2_request_url_witness :
    (fetch_news httpDown "K" 0 [] "a b" 7 5 "en").calls =
      [⟨"https://newsapi.org/v2/everything" ++ "?q=" ++ quote "a b" ++
          "&language=" ++ "en" ++ "&sortBy=publishedAt" ++ "&pageSize=" ++
          toString (5 : Int) ++ "&apiKey=" ++ "K", 10⟩] :=
  claim_C2_request_url httpDown "K" 0 [] "a b" 7 5 "en" rfl

/-- Claim C6 (confirmed): a non-error `/ask` response in news mode carries
exactly the trimmed answer, the mode tag `"news"` and the raw article list;
in direct mode it carries the trimmed answer and the mode tag `"direct"`
with no articles key (`none`). -/
theorem claim_C6_response_shape
    (http : HttpRequest → Except PyExn HttpResponse) (apiKey : String)
    (llm : ChatRequest → Except PyExn String) (now : ℤ) (c : Cache)
    (question : String) (arts : List Article) (s content content2 : String) :
    (looks_like_news_intent question = true →
      (fetch_news http apiKey now c "NVIDIA" 7 6 "en").result = .ok arts →
      (summarize_articles llm arts question).1 = .ok s →
      llm (blendRequest question s) = .ok content →
      (ask_nvidia http apiKey llm now c question).1 =
        .ok (pyStrip content) "news" (some arts))
    ∧ (looks_like_news_intent question = false →
      llm (directRequest question) = .ok content2 →
      (ask_nvidia http apiKey llm now c question).1 =
        .ok (pyStrip content2) "direct" none) := by
  constructor
  · intro hclass hfetch hsum hllm
    unfold ask_nvidia askTry
    simp only [hclass, if_true, hfetch, hsum, hllm]
  · intro hclass hllm
    unfold ask_nvidia askTry
    simp only [hclass, if_false, hllm, Bool.false_eq_true]

/-- Witness for C6: with an upstream returning one article and a constant
LLM oracle, the question "latest news" yields the news-mode triple and
"What is CUDA?" yields the direct-mode pair. -/
theorem claim_C6_response_shape_witness :
    (ask_nvidia httpOneArticle "K" llmConst 0 [] "latest news").1 =
      .ok (pyStrip "LLM answer") "news" (some [sampleArticle])
    ∧ (ask_nvidia httpOneArticle "K" llmConst 0 [] "What is CUDA?").1 =
      .ok (pyStrip "LLM answer") "direct" none :=
  ⟨(claim_C6_response_shape httpOneArticle "K" llmConst 0 [] "latest news"
      [sampleArticle] "LLM answer" "LLM answer" "LLM answer").1
      (by decide) rfl rfl rfl,
   (claim_C6_response_shape httpOneArticle "K" llmConst 0 [] "What is CUDA?"
      [sampleArticle] "LLM answer" "LLM answer" "LLM answer").2
      (by decide) rfl⟩

/-- Claim C7 (confirmed): any exception raised inside the `try` body of the
`/news` or `/ask` handler — network errors, LLM failures, and in particular
the `requests.HTTPError` that `raise_for_status` raises for every non-2xx
(4xx/5xx, e.g. 500) upstream response — is caught and converted into a
response carrying an error string, instead of propagating. -/
theorem claim_C7_error_bodies
    (http : HttpRequest → Except PyExn HttpResponse) (apiKey : String)
    (llm : ChatRequest → Except PyExn String) (now : ℤ) (c : Cache)
    (nq : NewsQuery) (question : String) (e : PyExn) (resp : HttpResponse) :
    ((newsTry http apiKey llm now c nq).1 = .error e →
      (newsEndpoint http apiKey llm now c nq).1 = .err (strExn e))
    ∧ ((askTry http apiKey llm now c question).1 = .error e →
      (ask_nvidia http apiKey llm now c question).1 = .err (askErrorBody e))
    ∧ (400 ≤ resp.status → resp.status < 600 →
      raise_for_status resp =
        .error (.httpError ("HTTP error " ++ toString resp.status))) := by
  refine ⟨?_, ?_, ?_⟩
  · intro h
    unfold newsEndpoint
    simp only [h]
  · intro h
    unfold ask_nvidia
    simp only [h]
  · intro h1 h2
    unfold raise_for_status
    rw [if_pos ⟨h1, h2⟩]

/-- Witness for C7 at concrete inputs: an upstream 500 on `/news` and on a
news-mode `/ask` question, and a failing LLM on a direct `/ask` question,
each produce an error-body response; `raise_for_status` on a 500 response
raises an `HTTPError`. -/
theorem claim_C7_error_bodies_witness :
    (newsEndpoint http500 "K" llmConst 0 [] ⟨"NVIDIA", 7, 5, "en"⟩).1 =
      .err (strExn (.httpError "HTTP error 500"))
    ∧ (ask_nvidia http500 "K" llmConst 0 [] "latest news").1 =
      .err (askErrorBody (.httpError "HTTP error 500"))
    ∧ (ask_nvidia httpOneArticle "K" llmDown 0 [] "What is CUDA?").1 =
      .err (askErrorBody (.other "llm failure"))
    ∧ raise_for_status ⟨500, none⟩ =
      .error (.httpError ("HTTP error " ++ toString (500 : Nat))) :=
  ⟨(claim_C7_error_bodies http500 "K" llmConst 0 [] ⟨"NVIDIA", 7, 5, "en"⟩
      "latest news" (.httpError "HTTP error 500") ⟨500, none⟩).1 rfl,
   (claim_C7_error_bodies http500 "K" llmConst 0 [] ⟨"NVIDIA", 7, 5, "en"⟩
      "latest news" (.httpError "HTTP error 500") ⟨500, none⟩).2.1 rfl,
   (claim_C7_error_bodies httpOneArticle "K" llmDown 0 []
      ⟨"NVIDIA", 7, 5, "en"⟩ "What is CUDA?" (.other "llm failure")
      ⟨500, none⟩).2.1 rfl,
   (claim_C7_error_bodies http500 "K" llmConst 0 [] ⟨"NVIDIA", 7, 5, "en"⟩
      "latest news" (.httpError "HTTP error 500") ⟨500, none⟩).2.2
      (by decide) (by decide)⟩

end NvidiaChatbot
